import Mathlib

/-!
Shallow embedding of the `lastcache` package (src/lastcache.go).

Modelling conventions:
- `time.Time` and `time.Duration` are both `Int` (nanoseconds); `t.After(d)`
  is `d < t`, `t.Add(dur)` is `t + dur`, `t.Sub(u)` is `t - u`.
- The global clock `now()` is passed explicitly as an `Int` argument `nw`
  to every operation (the package injects `now` as a mutable variable for
  deterministic tests, so an explicit clock parameter is the faithful model).
- The two `sync.Map` stores are total functions `K → Option V` /
  `K → Option Int` (per-key load/store semantics; `nil` interface values on
  a failed load are `none`).
- Go callbacks are pure functions of the key (the `context.Context`
  argument is threaded through unchanged by the cache and never inspected,
  so it is dropped).  `error` results are `Option E`.
- Control-flow instrumentation that the code makes observable is returned
  explicitly: the number of callback invocations (`calls`), the number of
  background workers spawned (`workers`), the capacity of a created error
  channel (`channel`), and the list of values written to that channel by
  the worker (`sends`, mirroring the single deferred `errChan <- err`).
-/

namespace LastCache

/-- `defaultTTL = 1 * time.Minute`, in nanoseconds. -/
def defaultTTL : Int := 60000000000

/-- `defaultSemaphore int = 1`. -/
def defaultSemaphore : Int := 1

/-- Config from src/lastcache.go (the `Context` field is dropped: it is
stored and passed through verbatim, never inspected by the cache logic). -/
structure Config where
  GlobalTTL : Int
  ExtendTTL : Int
  AsyncSemaphore : Int
deriving Repr, DecidableEq

/-- Entry returned to callers.  `Value` is Go `any`: `none` models `nil`. -/
structure Entry (V E : Type) where
  Value : Option V
  Stale : Bool
  Err : Option E
deriving Repr, DecidableEq

/-- The cache state: configuration, the two independent stores, and the
capacity of the semaphore channel created by `New`. -/
structure Cache (K V : Type) where
  config : Config
  mapStorage : K → Option V
  timeStorage : K → Option Int
  semCapacity : Int

/-- `New` from src/lastcache.go: replaces a non-positive `GlobalTTL` by
`defaultTTL`, sizes the semaphore channel from `AsyncSemaphore` when
positive and `defaultSemaphore` otherwise, and starts with empty stores. -/
def New (K V : Type) (config : Config) : Cache K V :=
  let config := if config.GlobalTTL ≤ 0 then { config with GlobalTTL := defaultTTL } else config
  { config := config
    mapStorage := fun _ => none
    timeStorage := fun _ => none
    semCapacity := if config.AsyncSemaphore > 0 then config.AsyncSemaphore else defaultSemaphore }

/-- `Set`: store the value and set expiry `now + GlobalTTL`. -/
def Cache.set {K V : Type} [DecidableEq K] (c : Cache K V) (nw : Int) (key : K) (value : V) :
    Cache K V :=
  { c with
    mapStorage := fun k => if k = key then some value else c.mapStorage k
    timeStorage := fun k => if k = key then some (nw + c.config.GlobalTTL) else c.timeStorage k }

/-- `Delete`: remove both records. -/
def Cache.delete {K V : Type} [DecidableEq K] (c : Cache K V) (key : K) : Cache K V :=
  { c with
    mapStorage := fun k => if k = key then none else c.mapStorage k
    timeStorage := fun k => if k = key then none else c.timeStorage k }

/-- `TTL`: `expiry - now` when an expiry record exists, else zero. -/
def Cache.TTL {K V : Type} (c : Cache K V) (nw : Int) (key : K) : Int :=
  match c.timeStorage key with
  | some d => d - nw
  | none => 0

/-- `checkIfExpired`: true when no expiry record exists or `now().After(d)`. -/
def Cache.checkIfExpired {K V : Type} (c : Cache K V) (nw : Int) (key : K) : Bool :=
  match c.timeStorage key with
  | none => true
  | some d => decide (d < nw)

/-- `updateTTL`: store expiry `now + ttl`, value untouched. -/
def Cache.updateTTL {K V : Type} [DecidableEq K] (c : Cache K V) (nw : Int) (key : K)
    (ttl : Int) : Cache K V :=
  { c with
    timeStorage := fun k => if k = key then some (nw + ttl) else c.timeStorage k }

/-- Result of `loadOrStore`: the entry, the call-level error, the resulting
cache state, and how many times the callback was invoked. -/
structure SyncResult (K V E : Type) where
  entry : Entry V E
  err : Option E
  cache : Cache K V
  calls : Nat

/-- `loadOrStore` from src/lastcache.go, branch for branch.  The zero
`Entry` (`nil` value, not stale, no error) is returned on error paths. -/
def Cache.loadOrStore {K V E : Type} [DecidableEq K] (c : Cache K V) (nw : Int) (key : K)
    (callback : K → V × Bool × Option E) : SyncResult K V E :=
  match c.timeStorage key with
  | none =>
    -- first time miss
    match callback key with
    | (_, _, some e) => ⟨⟨none, false, none⟩, some e, c, 1⟩
    | (newValue, _, none) =>
      ⟨⟨some newValue, false, none⟩, none, c.set nw key newValue, 1⟩
  | some d =>
    if d < nw then -- expired
      match callback key with
      | (newValue, _, none) =>
        -- store cache and set new ttl
        ⟨⟨some newValue, false, none⟩, none, c.set nw key newValue, 1⟩
      | (_, useStale, some e) =>
        if !useStale then
          ⟨⟨none, false, none⟩, some e, c, 1⟩
        else
          -- extend stale cache ttl, then load the (stale) value
          let c1 := if c.config.ExtendTTL > 0 then c.updateTTL nw key c.config.ExtendTTL else c
          ⟨⟨c1.mapStorage key, true, some e⟩, none, c1, 1⟩
    else
      -- fresh: fall through to the final load, no ttl extension
      ⟨⟨c.mapStorage key, false, none⟩, none, c, 0⟩

/-- Result of `asyncLoadOrStore`: the entry, the capacity of the created
error channel (`none` when no channel is returned), the call-level error,
the resulting cache state, the number of synchronous callback invocations,
and the number of background workers spawned. -/
structure AsyncResult (K V E : Type) where
  entry : Entry V E
  channel : Option Nat
  err : Option E
  cache : Cache K V
  syncCalls : Nat
  workers : Nat

/-- `asyncLoadOrStore` from src/lastcache.go.  On the expired path the
worker runs in the background: the spawn is recorded in `workers` and the
worker body itself is `Cache.updateCache`. -/
def Cache.asyncLoadOrStore {K V E : Type} [DecidableEq K] (c : Cache K V) (nw : Int) (key : K)
    (callback : K → V × Option E) : AsyncResult K V E :=
  match c.timeStorage key with
  | none =>
    -- first time miss
    match callback key with
    | (_, some e) => ⟨⟨none, false, none⟩, none, some e, c, 1, 0⟩
    | (newValue, none) =>
      ⟨⟨some newValue, false, none⟩, none, none, c.set nw key newValue, 1, 0⟩
  | some d =>
    if d < nw then -- expired: make the channel, spawn the worker, mark stale
      ⟨⟨c.mapStorage key, true, none⟩, some 1, none, c, 0, 1⟩
    else
      ⟨⟨c.mapStorage key, false, none⟩, none, none, c, 0, 0⟩

/-- Result of the background worker `updateCache`: the resulting cache
state, the values written to the error channel (the deferred
`errChan <- err`), and the number of callback invocations. -/
structure WorkerResult (K V E : Type) where
  cache : Cache K V
  sends : List (Option E)
  calls : Nat

/-- `updateCache` from src/lastcache.go: after acquiring a semaphore slot,
re-check expiry; when no longer expired do nothing (the deferred send
writes the still-nil `err`); otherwise extend the ttl when `ExtendTTL > 0`,
invoke the callback, store on success, and send the callback's error. -/
def Cache.updateCache {K V E : Type} [DecidableEq K] (c : Cache K V) (nw : Int) (key : K)
    (callback : K → V × Option E) : WorkerResult K V E :=
  if c.checkIfExpired nw key then
    -- extend stale cache ttl before invoking the callback
    let c1 := if c.config.ExtendTTL > 0 then c.updateTTL nw key c.config.ExtendTTL else c
    match callback key with
    | (newValue, none) => ⟨c1.set nw key newValue, [none], 1⟩
    | (_, some e) => ⟨c1, [some e], 1⟩
  else
    ⟨c, [none], 0⟩

/-! Concrete fixtures used by the witness theorems. -/

/-- A configuration with `GlobalTTL = 100`, `ExtendTTL = 30`, `AsyncSemaphore = 2`. -/
def cfgW : Config := ⟨100, 30, 2⟩

/-- A cache holding value `5` for key `1` with expiry `10`. -/
def cW : Cache Nat Int :=
  ⟨cfgW, fun k => if k = 1 then some 5 else none, fun k => if k = 1 then some 10 else none, 2⟩

/-- A sync callback that fails and accepts stale fallback. -/
def cbStaleOk : Nat → Int × Bool × Option Nat := fun _ => (7, true, some 3)

/-- A sync callback that fails and rejects stale fallback. -/
def cbStaleNo : Nat → Int × Bool × Option Nat := fun _ => (7, false, some 3)

/-- A sync callback that succeeds with value `7`. -/
def cbOk : Nat → Int × Bool × Option Nat := fun _ => (7, true, none)

/-- An async callback that fails with error `4`. -/
def acbErr : Nat → Int × Option Nat := fun _ => (9, some 4)

/-- An async callback that succeeds with value `9`. -/
def acbOk : Nat → Int × Option Nat := fun _ => (9, none)

/-- C6: on a fresh key (expiry record present and now ≤ expiry, including the
boundary instant) `loadOrStore` returns the stored value not stale with no
errors, invokes no callback, and leaves the cache unchanged. -/
theorem loadOrStore_fresh {K V E : Type} [DecidableEq K] (c : Cache K V) (nw : Int) (key : K)
    (cb : K → V × Bool × Option E) (d : Int)
    (ht : c.timeStorage key = some d) (hfresh : nw ≤ d) :
    c.loadOrStore nw key cb = ⟨⟨c.mapStorage key, false, none⟩, none, c, 0⟩ := by
  simp only [Cache.loadOrStore, ht]
  rw [if_neg (not_lt.mpr hfresh)]

/-- Witness for C6 at `cW`, key 1, now 5 (expiry 10). -/
theorem loadOrStore_fresh_witness :
    cW.timeStorage 1 = some 10 ∧ (5 : Int) ≤ 10 ∧
    cW.loadOrStore 5 1 cbOk = ⟨⟨some 5, false, none⟩, none, cW, 0⟩ :=
  ⟨rfl, by decide, (loadOrStore_fresh cW 5 1 cbOk 10 rfl (by decide)).trans rfl⟩

/-- C4: on an expired key, a failing refresh that rejects stale fallback makes
`loadOrStore` return the error and the zero entry, leaving the cache (value
and expiry) unchanged. -/
theorem loadOrStore_expired_staleRejected {K V E : Type} [DecidableEq K] (c : Cache K V)
    (nw : Int) (key : K) (cb : K → V × Bool × Option E) (d : Int) (nv : V) (e : E)
    (ht : c.timeStorage key = some d) (hexp : d < nw) (hcb : cb key = (nv, false, some e)) :
    c.loadOrStore nw key cb = ⟨⟨none, false, none⟩, some e, c, 1⟩ := by
  simp only [Cache.loadOrStore, ht, hcb]
  rw [if_pos hexp]
  simp

/-- Witness for C4 at `cW`, key 1, now 100 (expiry 10). -/
theorem loadOrStore_expired_staleRejected_witness :
    cW.timeStorage 1 = some 10 ∧ (10 : Int) < 100 ∧ cbStaleNo 1 = (7, false, some 3) ∧
    cW.loadOrStore 100 1 cbStaleNo = ⟨⟨none, false, none⟩, some 3, cW, 1⟩ :=
  ⟨rfl, by decide, rfl,
    loadOrStore_expired_staleRejected cW 100 1 cbStaleNo 10 7 3 rfl (by decide) rfl⟩

/-- C5: on a miss `loadOrStore` invokes the callback exactly once; a callback
error is returned with the zero entry and nothing stored (whatever the
useStale flag); on success the value is stored with expiry now + GlobalTTL
and returned not stale. -/
theorem loadOrStore_miss {K V E : Type} [DecidableEq K] (c : Cache K V) (nw : Int) (key : K)
    (cb : K → V × Bool × Option E) (ht : c.timeStorage key = none) :
    (c.loadOrStore nw key cb).calls = 1 ∧
    (∀ e : E, (cb key).2.2 = some e →
      c.loadOrStore nw key cb = ⟨⟨none, false, none⟩, some e, c, 1⟩) ∧
    ((cb key).2.2 = none →
      c.loadOrStore nw key cb =
        ⟨⟨some (cb key).1, false, none⟩, none, c.set nw key (cb key).1, 1⟩ ∧
      (c.loadOrStore nw key cb).cache.mapStorage key = some (cb key).1 ∧
      (c.loadOrStore nw key cb).cache.timeStorage key = some (nw + c.config.GlobalTTL)) := by
  rcases hcb : cb key with ⟨nv, us, er⟩
  cases er with
  | none =>
    refine ⟨?_, ?_, ?_⟩
    · simp [Cache.loadOrStore, ht, hcb]
    · intro e he
      simp at he
    · intro _
      refine ⟨by simp [Cache.loadOrStore, ht, hcb], ?_, ?_⟩
      · simp [Cache.loadOrStore, ht, hcb, Cache.set]
      · simp [Cache.loadOrStore, ht, hcb, Cache.set]
  | some e0 =>
    refine ⟨?_, ?_, ?_⟩
    · simp [Cache.loadOrStore, ht, hcb]
    · intro e he
      simp at he
      subst he
      simp [Cache.loadOrStore, ht, hcb]
    · intro h
      simp at h

/-- Witness for C5 at `cW`, key 2 (never set), now 100, succeeding callback. -/
theorem loadOrStore_miss_witness :
    cW.timeStorage 2 = none ∧
    (cW.loadOrStore 100 2 cbOk).calls = 1 ∧
    (cW.loadOrStore 100 2 cbOk).cache.mapStorage 2 = some 7 ∧
    (cW.loadOrStore 100 2 cbOk).cache.timeStorage 2 = some 200 :=
  ⟨rfl, (loadOrStore_miss cW 100 2 cbOk rfl).1,
    ((loadOrStore_miss cW 100 2 cbOk rfl).2.2 rfl).2.1.trans rfl,
    ((loadOrStore_miss cW 100 2 cbOk rfl).2.2 rfl).2.2.trans rfl⟩

/-- C1: on an expired key, a failing refresh that accepts stale fallback makes
`loadOrStore` return the previously stored value marked stale and carrying the
callback's error, with a nil call-level error; with `ExtendTTL > 0` the stored
expiry becomes now + ExtendTTL, and with `ExtendTTL = 0` it stays unchanged
(still expired). -/
theorem loadOrStore_expired_staleAccepted {K V E : Type} [DecidableEq K] (c : Cache K V)
    (nw : Int) (key : K) (cb : K → V × Bool × Option E) (d : Int) (nv : V) (e : E)
    (ht : c.timeStorage key = some d) (hexp : d < nw) (hcb : cb key = (nv, true, some e)) :
    (c.loadOrStore nw key cb).entry = ⟨c.mapStorage key, true, some e⟩ ∧
    (c.loadOrStore nw key cb).err = none ∧
    (c.loadOrStore nw key cb).calls = 1 ∧
    (c.loadOrStore nw key cb).cache.mapStorage key = c.mapStorage key ∧
    (0 < c.config.ExtendTTL →
      (c.loadOrStore nw key cb).cache.timeStorage key = some (nw + c.config.ExtendTTL)) ∧
    (c.config.ExtendTTL = 0 →
      (c.loadOrStore nw key cb).cache.timeStorage key = some d) := by
  have hmain : c.loadOrStore nw key cb =
      ⟨⟨(if c.config.ExtendTTL > 0 then c.updateTTL nw key c.config.ExtendTTL else c).mapStorage
          key, true, some e⟩, none,
        if c.config.ExtendTTL > 0 then c.updateTTL nw key c.config.ExtendTTL else c, 1⟩ := by
    simp only [Cache.loadOrStore, ht]
    rw [if_pos hexp]
    simp [hcb]
  by_cases hE : c.config.ExtendTTL > 0
  · rw [if_pos hE] at hmain
    refine ⟨?_, ?_, ?_, ?_, ?_, ?_⟩
    · rw [hmain]
      simp [Cache.updateTTL]
    · rw [hmain]
    · rw [hmain]
    · rw [hmain]
      simp [Cache.updateTTL]
    · intro _
      rw [hmain]
      simp [Cache.updateTTL]
    · intro h0
      exact absurd hE (by omega)
  · rw [if_neg hE] at hmain
    refine ⟨?_, ?_, ?_, ?_, ?_, ?_⟩
    · rw [hmain]
    · rw [hmain]
    · rw [hmain]
    · rw [hmain]
    · intro h
      exact absurd h hE
    · intro _
      rw [hmain]
      exact ht

/-- Witness for C1 at `cW`, key 1, now 100 (expiry 10, ExtendTTL 30). -/
theorem loadOrStore_expired_staleAccepted_witness :
    cW.timeStorage 1 = some 10 ∧ (10 : Int) < 100 ∧ cbStaleOk 1 = (7, true, some 3) ∧
    (cW.loadOrStore 100 1 cbStaleOk).entry = ⟨some 5, true, some 3⟩ ∧
    (cW.loadOrStore 100 1 cbStaleOk).err = none ∧
    (cW.loadOrStore 100 1 cbStaleOk).cache.timeStorage 1 = some 130 :=
  ⟨rfl, by decide, rfl,
    (loadOrStore_expired_staleAccepted cW 100 1 cbStaleOk 10 7 3 rfl (by decide) rfl).1.trans rfl,
    (loadOrStore_expired_staleAccepted cW 100 1 cbStaleOk 10 7 3 rfl (by decide) rfl).2.1,
    ((loadOrStore_expired_staleAccepted cW 100 1 cbStaleOk 10 7 3 rfl (by decide)
      rfl).2.2.2.2.1 (by decide)).trans rfl⟩

/-- C2: on an expired key `asyncLoadOrStore` immediately returns the stored
value marked stale with `Err = nil`, a nil call-level error and a buffered
channel of capacity 1, spawning one background worker; the worker, run at any
later instant, writes exactly one value to the channel — the callback's error
or nil — so a background failure never appears on the entry or the call's
error. -/
theorem asyncLoadOrStore_expired_background {K V E : Type} [DecidableEq K] (c : Cache K V)
    (nw : Int) (key : K) (acb : K → V × Option E) (d : Int)
    (ht : c.timeStorage key = some d) (hexp : d < nw) :
    c.asyncLoadOrStore nw key acb = ⟨⟨c.mapStorage key, true, none⟩, some 1, none, c, 0, 1⟩ ∧
    (∀ nw2 : Int,
      ((c.asyncLoadOrStore nw key acb).cache.updateCache nw2 key acb).sends.length = 1 ∧
      (((c.asyncLoadOrStore nw key acb).cache.updateCache nw2 key acb).sends = [(acb key).2] ∨
        ((c.asyncLoadOrStore nw key acb).cache.updateCache nw2 key acb).sends = [none])) := by
  have hmain : c.asyncLoadOrStore nw key acb =
      ⟨⟨c.mapStorage key, true, none⟩, some 1, none, c, 0, 1⟩ := by
    simp only [Cache.asyncLoadOrStore, ht]
    rw [if_pos hexp]
  refine ⟨hmain, ?_⟩
  intro nw2
  rw [hmain]
  by_cases hx : c.checkIfExpired nw2 key
  · rcases hacb : acb key with ⟨nv, er⟩
    cases er <;> simp [Cache.updateCache, hx, hacb]
  · simp only [Cache.updateCache, hx]
    exact ⟨rfl, Or.inr rfl⟩

/-- Witness for C2 at `cW`, key 1, now 100, failing async callback, worker
running at time 200. -/
theorem asyncLoadOrStore_expired_background_witness :
    cW.timeStorage 1 = some 10 ∧ (10 : Int) < 100 ∧
    cW.asyncLoadOrStore 100 1 acbErr = ⟨⟨some 5, true, none⟩, some 1, none, cW, 0, 1⟩ ∧
    ((cW.asyncLoadOrStore 100 1 acbErr).cache.updateCache 200 1 acbErr).sends.length = 1 :=
  ⟨rfl, by decide,
    (asyncLoadOrStore_expired_background cW 100 1 acbErr 10 rfl (by decide)).1.trans rfl,
    ((asyncLoadOrStore_expired_background cW 100 1 acbErr 10 rfl (by decide)).2 200).1⟩

/-- C3: the background worker re-checks expiry after acquiring its slot and
performs no further work when the key is no longer expired; otherwise it
invokes the callback once, stores the new value with expiry now + GlobalTTL on
success, and on error leaves the stored value untouched, with expiry extended
to now + ExtendTTL exactly when `ExtendTTL > 0`. -/
theorem updateCache_worker_behavior {K V E : Type} [DecidableEq K] (c : Cache K V) (nw : Int)
    (key : K) (acb : K → V × Option E) :
    (c.checkIfExpired nw key = false → c.updateCache nw key acb = ⟨c, [none], 0⟩) ∧
    (c.checkIfExpired nw key = true →
      (c.updateCache nw key acb).calls = 1 ∧
      ((acb key).2 = none →
        (c.updateCache nw key acb).cache.mapStorage key = some (acb key).1 ∧
        (c.updateCache nw key acb).cache.timeStorage key = some (nw + c.config.GlobalTTL)) ∧
      (∀ e, (acb key).2 = some e →
        (c.updateCache nw key acb).cache.mapStorage key = c.mapStorage key ∧
        (0 < c.config.ExtendTTL →
          (c.updateCache nw key acb).cache.timeStorage key =
            some (nw + c.config.ExtendTTL)) ∧
        (c.config.ExtendTTL = 0 →
          (c.updateCache nw key acb).cache.timeStorage key = c.timeStorage key))) := by
  constructor
  · intro h
    simp [Cache.updateCache, h]
  · intro h
    rcases hacb : acb key with ⟨nv, er⟩
    by_cases hE : c.config.ExtendTTL > 0
    · cases er with
      | none =>
        refine ⟨by simp [Cache.updateCache, h, hacb], ⟨fun _ => ?_, fun e he => ?_⟩⟩
        · constructor <;> simp [Cache.updateCache, h, hacb, hE, Cache.set, Cache.updateTTL]
        · simp at he
      | some e0 =>
        refine ⟨by simp [Cache.updateCache, h, hacb], ⟨fun hn => by simp at hn, fun e he => ?_⟩⟩
        refine ⟨?_, fun _ => ?_, fun h0 => absurd hE (by omega)⟩
        · simp [Cache.updateCache, h, hacb, hE, Cache.updateTTL]
        · simp [Cache.updateCache, h, hacb, hE, Cache.updateTTL]
    · cases er with
      | none =>
        refine ⟨by simp [Cache.updateCache, h, hacb], ⟨fun _ => ?_, fun e he => ?_⟩⟩
        · constructor <;> simp [Cache.updateCache, h, hacb, hE, Cache.set, Cache.updateTTL]
        · simp at he
      | some e0 =>
        refine ⟨by simp [Cache.updateCache, h, hacb], ⟨fun hn => by simp at hn, fun e he => ?_⟩⟩
        refine ⟨?_, fun hc => absurd hc hE, fun _ => ?_⟩
        · simp [Cache.updateCache, h, hacb, hE]
        · simp [Cache.updateCache, h, hacb, hE]

/-- Witness for C3 at `cW`, key 1, now 100, failing async callback (error
path, ExtendTTL 30). -/
theorem updateCache_worker_behavior_witness :
    cW.checkIfExpired 100 1 = true ∧ acbErr 1 = (9, some 4) ∧
    (cW.updateCache 100 1 acbErr).calls = 1 ∧
    (cW.updateCache 100 1 acbErr).cache.mapStorage 1 = some 5 ∧
    (cW.updateCache 100 1 acbErr).cache.timeStorage 1 = some 130 :=
  ⟨by decide, rfl,
    ((updateCache_worker_behavior cW 100 1 acbErr).2 (by decide)).1,
    (((updateCache_worker_behavior cW 100 1 acbErr).2 (by decide)).2.2 4 rfl).1.trans rfl,
    ((((updateCache_worker_behavior cW 100 1 acbErr).2 (by decide)).2.2 4 rfl).2.1
      (by decide)).trans rfl⟩

/-- A cache with an expiry record for key 1 (expiry 100) but no value record:
the non-atomicity window of the dual store. -/
def cC7 : Cache Nat Int := ⟨⟨100, 30, 1⟩, fun _ => none, fun k => if k = 1 then some 100 else none, 1⟩

/-- The same cache with the expiry record also absent: a genuine miss. -/
def cC7miss : Cache Nat Int := ⟨⟨100, 30, 1⟩, fun _ => none, fun _ => none, 1⟩

/-- C7 (counterexample): with an expiry record present but no value record,
`loadOrStore` and `asyncLoadOrStore` do NOT treat the key as a miss: on the
fresh path they invoke no callback and return an absent value, while the true
miss state invokes the callback and returns its value — the behaviours
differ. -/
theorem missingValue_not_miss_cex :
    cC7.timeStorage 1 = some 100 ∧ cC7.mapStorage 1 = none ∧
    (cC7.loadOrStore 50 1 cbOk).calls = 0 ∧
    (cC7miss.loadOrStore 50 1 cbOk).calls = 1 ∧
    (cC7.loadOrStore 50 1 cbOk).entry ≠ (cC7miss.loadOrStore 50 1 cbOk).entry ∧
    (cC7.asyncLoadOrStore 50 1 acbOk).syncCalls = 0 ∧
    (cC7miss.asyncLoadOrStore 50 1 acbOk).syncCalls = 1 ∧
    (cC7.asyncLoadOrStore 50 1 acbOk).entry ≠ (cC7miss.asyncLoadOrStore 50 1 acbOk).entry := by
  decide

/-- C7 (amended): with an expiry record present but no value record, both
calls classify the key by the expiry record alone, never as a miss: on the
fresh path they return an entry with an absent value, invoke no callback and
leave the cache unchanged; on the expired path `asyncLoadOrStore` returns an
absent stale value and spawns its worker as for any expired key. -/
theorem missingValue_classified_by_expiry {K V E : Type} [DecidableEq K] (c : Cache K V)
    (nw : Int) (key : K) (cb : K → V × Bool × Option E) (acb : K → V × Option E) (d : Int)
    (ht : c.timeStorage key = some d) (hv : c.mapStorage key = none) :
    (nw ≤ d →
      c.loadOrStore nw key cb = ⟨⟨none, false, none⟩, none, c, 0⟩ ∧
      c.asyncLoadOrStore nw key acb = ⟨⟨none, false, none⟩, none, none, c, 0, 0⟩) ∧
    (d < nw →
      (c.asyncLoadOrStore nw key acb).entry = ⟨none, true, none⟩ ∧
      (c.asyncLoadOrStore nw key acb).syncCalls = 0 ∧
      (c.asyncLoadOrStore nw key acb).workers = 1) := by
  refine ⟨fun hf => ⟨?_, ?_⟩, fun hx => ?_⟩
  · simp only [Cache.loadOrStore, ht]
    rw [if_neg (not_lt.mpr hf), hv]
  · simp only [Cache.asyncLoadOrStore, ht]
    rw [if_neg (not_lt.mpr hf), hv]
  · have h2 : c.asyncLoadOrStore nw key acb = ⟨⟨none, true, none⟩, some 1, none, c, 0, 1⟩ := by
      simp only [Cache.asyncLoadOrStore, ht]
      rw [if_pos hx, hv]
    rw [h2]
    exact ⟨rfl, rfl, rfl⟩

/-- Witness for amended C7 at `cC7`, key 1 (expiry 100, no value), now 50. -/
theorem missingValue_classified_by_expiry_witness :
    cC7.timeStorage 1 = some 100 ∧ cC7.mapStorage 1 = none ∧ (50 : Int) ≤ 100 ∧
    cC7.loadOrStore 50 1 cbOk = ⟨⟨none, false, none⟩, none, cC7, 0⟩ :=
  ⟨rfl, rfl, by decide,
    ((missingValue_classified_by_expiry cC7 50 1 cbOk acbOk 100 rfl rfl).1 (by decide)).1⟩

/-- Helper: any call with no expiry record for the key invokes the sync
callback exactly once (both callback outcomes). -/
theorem loadOrStore_calls_of_none {K V E : Type} [DecidableEq K] (c : Cache K V) (nw : Int)
    (key : K) (cb : K → V × Bool × Option E) (h : c.timeStorage key = none) :
    (c.loadOrStore nw key cb).calls = 1 := by
  rcases hcb : cb key with ⟨nv, us, er⟩
  cases er <;> simp [Cache.loadOrStore, h, hcb]

/-- C8: `TTL` returns expiry − now when an expiry record is present (negative
for an expired key) and zero when absent; keys never set and keys just
deleted give zero and are treated by `loadOrStore` as a miss (callback
invoked). -/
theorem TTL_spec {K V E : Type} [DecidableEq K] (c : Cache K V) (nw : Int) (key : K)
    (cb : K → V × Bool × Option E) (cfg : Config) :
    (∀ d, c.timeStorage key = some d → c.TTL nw key = d - nw) ∧
    (c.timeStorage key = none → c.TTL nw key = 0 ∧ (c.loadOrStore nw key cb).calls = 1) ∧
    ((c.delete key).TTL nw key = 0 ∧ (c.delete key).timeStorage key = none ∧
      ((c.delete key).loadOrStore nw key cb).calls = 1) ∧
    ((New K V cfg).TTL nw key = 0 ∧ (New K V cfg).timeStorage key = none ∧
      ((New K V cfg).loadOrStore nw key cb).calls = 1) := by
  have hdel : (c.delete key).timeStorage key = none := by simp [Cache.delete]
  have hnew : (New K V cfg).timeStorage key = none := rfl
  refine ⟨fun d h => ?_, fun h => ⟨?_, ?_⟩, ⟨?_, hdel, ?_⟩, ⟨?_, hnew, ?_⟩⟩
  · simp [Cache.TTL, h]
  · simp [Cache.TTL, h]
  · exact loadOrStore_calls_of_none c nw key cb h
  · simp [Cache.TTL, hdel]
  · exact loadOrStore_calls_of_none (c.delete key) nw key cb hdel
  · simp [Cache.TTL, hnew]
  · exact loadOrStore_calls_of_none (New K V cfg) nw key cb hnew

/-- Witness for C8 at `cW`: key 1 has expiry 10 (TTL 5 at now 5), key 2 was
never set, key 1 just deleted, and a fresh `New` cache. -/
theorem TTL_spec_witness :
    cW.timeStorage 1 = some 10 ∧ cW.TTL 5 1 = 5 ∧
    cW.timeStorage 2 = none ∧ cW.TTL 5 2 = 0 ∧ (cW.loadOrStore 5 2 cbOk).calls = 1 ∧
    (cW.delete 1).TTL 5 1 = 0 ∧ ((cW.delete 1).loadOrStore 5 1 cbOk).calls = 1 ∧
    (New Nat Int cfgW).TTL 5 1 = 0 :=
  ⟨rfl, ((TTL_spec cW 5 1 cbOk cfgW).1 10 rfl).trans (by decide), rfl,
    ((TTL_spec cW 5 2 cbOk cfgW).2.1 rfl).1, ((TTL_spec cW 5 2 cbOk cfgW).2.1 rfl).2,
    (TTL_spec cW 5 1 cbOk cfgW).2.2.1.1, (TTL_spec cW 5 1 cbOk cfgW).2.2.1.2.2,
    (TTL_spec cW 5 1 cbOk cfgW).2.2.2.1⟩

/-- C9: `New` never fails and applies defaults: non-positive `GlobalTTL`
becomes `defaultTTL` (one minute), a non-positive `AsyncSemaphore` yields
semaphore capacity 1, positive configured values are kept, and the other
fields are preserved. -/
theorem New_defaults (K V : Type) (cfg : Config) :
    (cfg.GlobalTTL ≤ 0 → (New K V cfg).config.GlobalTTL = defaultTTL) ∧
    (0 < cfg.GlobalTTL → (New K V cfg).config.GlobalTTL = cfg.GlobalTTL) ∧
    (cfg.AsyncSemaphore ≤ 0 → (New K V cfg).semCapacity = 1) ∧
    (0 < cfg.AsyncSemaphore → (New K V cfg).semCapacity = cfg.AsyncSemaphore) ∧
    (New K V cfg).config.ExtendTTL = cfg.ExtendTTL ∧
    (New K V cfg).config.AsyncSemaphore = cfg.AsyncSemaphore := by
  by_cases hg : cfg.GlobalTTL ≤ 0 <;> by_cases hs : cfg.AsyncSemaphore > 0
  · exact ⟨fun _ => by simp [New, hg, hs], fun h => absurd hg (by omega),
      fun h => absurd hs (by omega), fun _ => by simp [New, hg, hs],
      by simp [New, hg, hs], by simp [New, hg, hs]⟩
  · exact ⟨fun _ => by simp [New, hg, hs], fun h => absurd hg (by omega),
      fun _ => by simp [New, hg, hs, defaultSemaphore], fun h => absurd h hs,
      by simp [New, hg, hs], by simp [New, hg, hs]⟩
  · exact ⟨fun h => absurd h hg, fun _ => by simp [New, hg, hs],
      fun h => absurd hs (by omega), fun _ => by simp [New, hg, hs],
      by simp [New, hg, hs], by simp [New, hg, hs]⟩
  · exact ⟨fun h => absurd h hg, fun _ => by simp [New, hg, hs],
      fun _ => by simp [New, hg, hs, defaultSemaphore], fun h => absurd h hs,
      by simp [New, hg, hs], by simp [New, hg, hs]⟩

/-- Witness for C9: zero `GlobalTTL` and zero `AsyncSemaphore` get the
defaults; positive values are kept. -/
theorem New_defaults_witness :
    ((0 : Int) ≤ 0 ∧ (New Nat Int ⟨0, 5, 0⟩).config.GlobalTTL = defaultTTL ∧
      (New Nat Int ⟨0, 5, 0⟩).semCapacity = 1) ∧
    ((0 : Int) < 100 ∧ (New Nat Int cfgW).config.GlobalTTL = 100 ∧
      (New Nat Int cfgW).semCapacity = 2) :=
  ⟨⟨by decide, (New_defaults Nat Int ⟨0, 5, 0⟩).1 (by decide),
      (New_defaults Nat Int ⟨0, 5, 0⟩).2.2.1 (by decide)⟩,
    ⟨by decide, (New_defaults Nat Int cfgW).2.1 (by decide),
      (New_defaults Nat Int cfgW).2.2.2.1 (by decide)⟩⟩

/-- C10: a single `loadOrStore` call invokes its callback at most once on
every path; a single `asyncLoadOrStore` call invokes its callback
synchronously at most once and spawns at most one worker, and the worker
invokes the callback at most once. -/
theorem callback_at_most_once {K V E : Type} [DecidableEq K] (c : Cache K V) (nw : Int)
    (key : K) (cb : K → V × Bool × Option E) (acb : K → V × Option E) :
    (c.loadOrStore nw key cb).calls ≤ 1 ∧
    (c.asyncLoadOrStore nw key acb).syncCalls ≤ 1 ∧
    (c.asyncLoadOrStore nw key acb).workers ≤ 1 ∧
    (c.updateCache nw key acb).calls ≤ 1 := by
  refine ⟨?_, ?_, ?_, ?_⟩
  · rcases ht : c.timeStorage key with _ | d
    · rcases hcb : cb key with ⟨nv, us, er⟩
      cases er <;> simp [Cache.loadOrStore, ht, hcb]
    · by_cases hx : d < nw
      · rcases hcb : cb key with ⟨nv, us, er⟩
        cases er <;> cases us <;> simp [Cache.loadOrStore, ht, hcb, hx]
      · simp [Cache.loadOrStore, ht, hx]
  · rcases ht : c.timeStorage key with _ | d
    · rcases hacb : acb key with ⟨nv2, er2⟩
      cases er2 <;> simp [Cache.asyncLoadOrStore, ht, hacb]
    · by_cases hx : d < nw <;> simp [Cache.asyncLoadOrStore, ht, hx]
  · rcases ht : c.timeStorage key with _ | d
    · rcases hacb : acb key with ⟨nv2, er2⟩
      cases er2 <;> simp [Cache.asyncLoadOrStore, ht, hacb]
    · by_cases hx : d < nw <;> simp [Cache.asyncLoadOrStore, ht, hx]
  · by_cases hx : c.checkIfExpired nw key
    · rcases hacb : acb key with ⟨nv2, er2⟩
      cases er2 <;> simp [Cache.updateCache, hx, hacb]
    · simp [Cache.updateCache, hx]

end LastCache
